import Mathlib

/-!
Verification of the Datadog→Prometheus/Grafana migration agent
(`agent.py`): the dashboard schema validator, the promtool-based rule
validator (with the subprocess world modelled as an oracle), and the two
self-correcting orchestration loops `translate_query` and
`translate_dashboard`.

JSON values decoded by `json.loads` are modelled by the inductive `Json`
(numbers as `Int`; no claim involves fractional values).  Python's
`key in obj` test is modelled by `jsonHasKey`, defined only for mapping
values: for a non-mapping operand Python would raise or perform
element/substring containment, but such values lie outside the dashboard
wire format and every claim below; they are modelled as having no keys.
-/

namespace OllieAgent

/-- A JSON value as produced by `json.loads`. Objects keep their fields as
an association list in insertion order. -/
inductive Json where
  | null
  | bool (b : Bool)
  | num (n : Int)
  | str (s : String)
  | arr (elems : List Json)
  | obj (fields : List (String × Json))
deriving Repr, Inhabited

/-- A decoded JSON object's fields (a Python `dict`). -/
abbrev Dict := List (String × Json)

/-- `d.get(k)`: first binding of `k` in the object. -/
def dictLookup (d : Dict) (k : String) : Option Json :=
  match d with
  | [] => none
  | (k₁, v) :: rest => if k₁ = k then some v else dictLookup rest k

/-- Python's `k in d` membership test on a dict. -/
def dictHas (d : Dict) (k : String) : Bool :=
  (dictLookup d k).isSome

/-- Python's `k in v` membership test, for `v` a JSON value.  Non-mapping
values are modelled as having no keys (see the file header). -/
def jsonHasKey (v : Json) (k : String) : Bool :=
  match v with
  | .obj fields => dictHas fields k
  | _ => false

/-- `v.get(k)` on a JSON value, `none` when `v` is not a mapping or lacks `k`. -/
def jsonGet (v : Json) (k : String) : Option Json :=
  match v with
  | .obj fields => dictLookup fields k
  | _ => none

/-- `type(v).__name__` for a decoded JSON value. -/
def pyTypeName : Json → String
  | .null => "NoneType"
  | .bool _ => "bool"
  | .num _ => "int"
  | .str _ => "str"
  | .arr _ => "list"
  | .obj _ => "dict"

/-- `isinstance(v, str)`. -/
def Json.isStr : Json → Bool
  | .str _ => true
  | _ => false

/-- `isinstance(v, list)`. -/
def Json.isList : Json → Bool
  | .arr _ => true
  | _ => false

/-! ## Dashboard validator (`validate_grafana_dashboard`, agent.py lines 199-308) -/

/-- One iteration of the required-top-level-fields loop: missing key, or
present with the wrong runtime type. -/
def checkRequiredField (dashboard : Dict) (field : String)
    (isType : Json → Bool) (typeName : String) : List String :=
  match dictLookup dashboard field with
  | none => ["Missing required field: '" ++ field ++ "'"]
  | some v =>
    if isType v then []
    else ["Field '" ++ field ++ "' should be " ++ typeName ++ ", got " ++ pyTypeName v]

/-- The violations collected over `required_fields = {title: str, panels: list}`,
in iteration order. -/
def requiredFieldErrors (dashboard : Dict) : List String :=
  checkRequiredField dashboard "title" Json.isStr "str" ++
  checkRequiredField dashboard "panels" Json.isList "list"

/-- `dashboard.get("panels", [])`, read after the required-field check has
established that `panels` is a list. -/
def getPanels (dashboard : Dict) : List Json :=
  match dictLookup dashboard "panels" with
  | some (.arr ps) => ps
  | _ => []

/-- The two checks on target `j` of panel `i`: at least one of `expr`/`query`,
and `refId`. -/
def targetErrors (i j : Nat) (target : Json) : List String :=
  (if !(jsonHasKey target "expr") && !(jsonHasKey target "query") then
    ["Panel " ++ toString i ++ ", Target " ++ toString j ++ ": Missing 'expr' or 'query'"]
   else []) ++
  (if !(jsonHasKey target "refId") then
    ["Panel " ++ toString i ++ ", Target " ++ toString j ++ ": Missing 'refId'"]
   else [])

/-- `for j, target in enumerate(targets)` starting at index `j`. -/
def targetListErrorsFrom (i j : Nat) : List Json → List String
  | [] => []
  | t :: rest => targetErrors i j t ++ targetListErrorsFrom i (j + 1) rest

/-- The `targets` block of the per-panel checks: only runs when the key is
present; a non-list value or an empty list is one violation, otherwise each
target is checked. -/
def targetsErrors (i : Nat) (panel : Json) : List String :=
  match jsonGet panel "targets" with
  | none => []
  | some (.arr ts) =>
    if ts.isEmpty then ["Panel " ++ toString i ++ ": No targets (queries) defined"]
    else targetListErrorsFrom i 0 ts
  | some _ => ["Panel " ++ toString i ++ ": 'targets' should be a list"]

/-- The `gridPos` block of the per-panel checks. -/
def gridPosErrors (i : Nat) (panel : Json) : List String :=
  match jsonGet panel "gridPos" with
  | some grid =>
    (["x", "y", "w", "h"].filter (fun f => !(jsonHasKey grid f))).map
      (fun f => "Panel " ++ toString i ++ ": gridPos missing '" ++ f ++ "'")
  | none => ["Panel " ++ toString i ++ ": Missing 'gridPos'"]

/-- All violations for panel `i`, in the source's emission order. -/
def panelErrors (i : Nat) (panel : Json) : List String :=
  (if !(jsonHasKey panel "id") then ["Panel " ++ toString i ++ ": Missing 'id'"] else []) ++
  (if !(jsonHasKey panel "type") then ["Panel " ++ toString i ++ ": Missing 'type'"] else []) ++
  (if !(jsonHasKey panel "title") then ["Panel " ++ toString i ++ ": Missing 'title'"] else []) ++
  gridPosErrors i panel ++
  targetsErrors i panel

/-- `for i, panel in enumerate(panels)` starting at index `i`. -/
def panelListErrorsFrom (i : Nat) : List Json → List String
  | [] => []
  | p :: rest => panelErrors i p ++ panelListErrorsFrom (i + 1) rest

/-- The panel-phase violations: the non-empty-panels requirement followed by
every panel's accumulated violations. -/
def panelPhaseErrors (dashboard : Dict) : List String :=
  (if (getPanels dashboard).isEmpty then ["Dashboard has no panels"] else []) ++
  panelListErrorsFrom 0 (getPanels dashboard)

/-- The advisory recommended-fields warnings. -/
def recommendedWarnings (dashboard : Dict) : List String :=
  (if !(dictHas dashboard "uid") then
    ["Recommended: Add 'uid' for dashboard identification"] else []) ++
  (if !(dictHas dashboard "schemaVersion") then
    ["Recommended: Add 'schemaVersion'"] else []) ++
  (if !(dictHas dashboard "time") then
    ["Recommended: Add 'time' object for default time range"] else []) ++
  (if !(dictHas dashboard "refresh") then
    ["Recommended: Add 'refresh' for auto-refresh interval"] else [])

/-- `target.get("expr", "")` as a string.  A present non-string value would
make the Python sanity loop raise on `in`/`.strip()`; such values are outside
the wire format and are modelled as the default `""`. -/
def targetExpr (target : Json) : String :=
  match jsonGet target "expr" with
  | some (.str s) => s
  | _ => ""

/-- `panel.get("targets", [])` as a list, for the query-sanity loop. -/
def getTargets (panel : Json) : List Json :=
  match jsonGet panel "targets" with
  | some (.arr ts) => ts
  | _ => []

/-- Substring containment, Python's `sub in s` for strings. -/
def strContains (s sub : String) : Bool :=
  (s.splitOn sub).length > 1

/-- The query-sanity findings on target `j` of panel `i`. -/
def targetQueryIssues (i j : Nat) (target : Json) : List String :=
  let expr := targetExpr target
  if expr ≠ "" then
    (if strContains expr "\x7b\x7d" || strContains expr "[]" then
      ["Panel " ++ toString i ++ ", Target " ++ toString j ++ ": Query contains empty braces/brackets"]
     else []) ++
    (if expr.trim = "" then
      ["Panel " ++ toString i ++ ", Target " ++ toString j ++ ": Empty query"]
     else [])
  else []

/-- Inner `enumerate` of the query-sanity loop, starting at target index `j`. -/
def targetQueryIssuesFrom (i j : Nat) : List Json → List String
  | [] => []
  | t :: rest => targetQueryIssues i j t ++ targetQueryIssuesFrom i (j + 1) rest

/-- Outer `enumerate` of the query-sanity loop, starting at panel index `i`. -/
def panelQueryIssuesFrom (i : Nat) : List Json → List String
  | [] => []
  | p :: rest => targetQueryIssuesFrom i 0 (getTargets p) ++ panelQueryIssuesFrom (i + 1) rest

/-- `"  • "`-bulleted rendering of an error list, as in both failure returns. -/
def bulleted (errors : List String) : String :=
  String.intercalate "\n" (errors.map (fun e => "  • " ++ e))

/-- `validate_grafana_dashboard(dashboard)`: structural schema validation,
returning `(success, logs)` exactly as the source does. -/
def validate_grafana_dashboard (dashboard : Dict) : Bool × String :=
  let errors := requiredFieldErrors dashboard
  if !errors.isEmpty then
    (false, "❌ Dashboard Schema Validation: FAILED\n\n" ++ bulleted errors)
  else
    let panels := getPanels dashboard
    let errors2 := panelPhaseErrors dashboard
    if !errors2.isEmpty then
      (false, "❌ Panel Validation: FAILED\n\n" ++ bulleted errors2)
    else
      let logs := ["✅ Required fields: PASSED",
        "✅ Panel validation: PASSED (" ++ toString panels.length ++ " panels)"]
      let warnings := recommendedWarnings dashboard
      let logs2 := logs ++
        (if !warnings.isEmpty then
          "\n⚠️  Recommendations:" :: warnings.map (fun w => "  • " ++ w)
         else [])
      let queryIssues := panelQueryIssuesFrom 0 panels
      let logs3 := logs2 ++
        (if !queryIssues.isEmpty then
          "\n⚠️  Query Issues:" :: queryIssues.map (fun q => "  • " ++ q)
         else [])
      (true, String.intercalate "\n" logs3)

/-! ## Rule validator (`validate_prometheus_rules`, agent.py lines 129-196)

The two `promtool` subprocess invocations and the temp-file writes are I/O;
they are modelled by an oracle environment `PromtoolEnv` recording, for this
call's rule/test texts, how each step of the real function would behave:
whether writing the YAML files raises, and the outcome of each bounded
(`timeout=10`) subprocess run.  The function's control flow over those
outcomes is translated verbatim. -/

/-- Outcome of one `subprocess.run` invocation: normal completion with exit
status and captured output, `subprocess.TimeoutExpired`, `FileNotFoundError`
(carrying its `str(e)` rendering, used where only a generic `except Exception`
handler sees it), or any other exception. -/
inductive RunOutcome where
  | completed (returncode : Int) (stdout stderr : String)
  | timedOut
  | notFound (msg : String)
  | failed (msg : String)
deriving Repr, Inhabited

/-- The I/O world one `validate_prometheus_rules` call runs in. -/
structure PromtoolEnv where
  /-- `str(e)` of the exception raised while writing the YAML files, if any. -/
  writeError : Option String
  /-- Outcome of `promtool check rules rules.yml`. -/
  checkRules : RunOutcome
  /-- Outcome of `promtool test rules tests.yml`. -/
  testRules : RunOutcome
deriving Repr, Inhabited

/-- `validate_prometheus_rules(rule_yaml, test_yaml)` under world `env`:
phase 1 checks syntax, phase 2 runs the unit tests, each guarded by the
source's `except` clauses. -/
def validate_prometheus_rules (env : PromtoolEnv) : Bool × String :=
  match env.writeError with
  | some e => (false, "❌ Error writing YAML files: " ++ e)
  | none =>
    match env.checkRules with
    | .timedOut => (false, "❌ Syntax validation timeout")
    | .notFound _ => (false, "❌ promtool not found (not in container?)")
    | .failed e => (false, "❌ Syntax check error: " ++ e)
    | .completed rc out err =>
      if rc ≠ 0 then
        (false, "❌ Syntax Check: FAILED\n\nSTDOUT:\n" ++ out ++ "\n\nSTDERR:\n" ++ err)
      else
        let logs := ["✅ Syntax Check: PASSED", "   " ++ out.trim]
        match env.testRules with
        | .timedOut => (false, "❌ Test execution timeout")
        | .notFound m => (false, "❌ Test execution error: " ++ m)
        | .failed e => (false, "❌ Test execution error: " ++ e)
        | .completed rc2 out2 err2 =>
          if rc2 = 0 then
            (true, String.intercalate "\n"
              (logs ++ ["✅ Unit Tests: PASSED", "\n" ++ out2]))
          else
            (false, String.intercalate "\n"
              (logs ++ ["❌ Unit Tests: FAILED\n\nSTDOUT:\n" ++ out2 ++
                "\n\nSTDERR:\n" ++ err2]))

/-! ## Orchestrator (`MigrationAgent.translate_query` lines 326-408,
`MigrationAgent.translate_dashboard` lines 410-494)

Both methods are the same retry loop over `for attempt in range(1,
max_retries + 1)`; `runLoop` embeds that loop once, parameterized by the
per-kind response check (`extract`), validator and corrective message, and
the two methods instantiate it.  The chat-completion call is the
`gen` oracle: a function of the conversation sent, returning either the
parsed response (the source always feeds the completion to `json.loads`),
a `json.JSONDecodeError`, or any other exception from the API call.
`fuel` counts the attempts still available including the current one, so
`fuel = 0` inside an attempt is the source's `attempt == max_retries`.
Alongside the result the embedding returns the run's trace: one
`AttemptEvent` per generator invocation, recording the conversation sent,
the generator outcome, the validator verdict when the attempt reached
validation (`none` when it did not), and the conversation the attempt
leaves behind.  The progress callbacks (`on_attempt`, `on_validation`) are
side-effect-only and are not modelled. -/

/-- One chat message `{role, content}`. -/
structure Message where
  role : String
  content : String
deriving Repr, Inhabited

/-- Outcome of one generator invocation, after `json.loads`. -/
inductive GenResult where
  | apiError (msg : String)
  | jsonError (msg : String)
  | parsed (content : String) (data : Dict)
deriving Repr, Inhabited

/-- The `(success, data, final_message)` triple both methods return. -/
structure RunResult where
  success : Bool
  data : Option Dict
  log : String
deriving Repr, Inhabited

/-- Observation of one attempt of the loop. -/
structure AttemptEvent where
  attempt : Nat
  isFinal : Bool
  msgsBefore : List Message
  gen : GenResult
  verdict : Option (Bool × String)
  msgsAfter : List Message
deriving Repr, Inhabited

/-- The retry loop shared by both translation methods.  `fuel` is the number
of attempts still available including the current one; `attempt` is the
1-based attempt number. -/
def runLoop {α : Type} (gen : List Message → GenResult)
    (extract : Dict → Except String α) (validate : α → Bool × String)
    (corrective : String → String) :
    Nat → Nat → List Message → RunResult × List AttemptEvent
  | 0, _, _ => (⟨false, none, "Max retries reached"⟩, [])
  | fuel + 1, attempt, msgs =>
    match gen msgs with
    | .apiError e =>
      if fuel = 0 then
        (⟨false, none, e⟩, [⟨attempt, true, msgs, .apiError e, none, msgs⟩])
      else
        let r := runLoop gen extract validate corrective fuel (attempt + 1) msgs
        (r.1, ⟨attempt, false, msgs, .apiError e, none, msgs⟩ :: r.2)
    | .jsonError e =>
      if fuel = 0 then
        (⟨false, none, "JSON parsing failed: " ++ e⟩,
         [⟨attempt, true, msgs, .jsonError e, none, msgs⟩])
      else
        let r := runLoop gen extract validate corrective fuel (attempt + 1) msgs
        (r.1, ⟨attempt, false, msgs, .jsonError e, none, msgs⟩ :: r.2)
    | .parsed content data =>
      match extract data with
      | .error e =>
        if fuel = 0 then
          (⟨false, none, e⟩, [⟨attempt, true, msgs, .parsed content data, none, msgs⟩])
        else
          let r := runLoop gen extract validate corrective fuel (attempt + 1) msgs
          (r.1, ⟨attempt, false, msgs, .parsed content data, none, msgs⟩ :: r.2)
      | .ok artifact =>
        match validate artifact with
        | (true, logs) =>
          (⟨true, some data, logs⟩,
           [⟨attempt, decide (fuel = 0), msgs, .parsed content data, some (true, logs), msgs⟩])
        | (false, logs) =>
          if fuel = 0 then
            (⟨false, some data, logs⟩,
             [⟨attempt, true, msgs, .parsed content data, some (false, logs), msgs⟩])
          else
            let msgs2 := msgs ++ [⟨"assistant", content⟩, ⟨"user", corrective logs⟩]
            let r := runLoop gen extract validate corrective fuel (attempt + 1) msgs2
            (r.1, ⟨attempt, false, msgs, .parsed content data, some (false, logs), msgs2⟩ :: r.2)

/-- The response fields `translate_query` requires before validating. -/
def requiredQueryFields : List String := ["reasoning", "rule_yaml", "test_yaml"]

/-- Python's `repr` of a list of strings, as interpolated into the
`Missing required fields: {missing}` message. -/
def pyStrListRepr (xs : List String) : String :=
  "[" ++ String.intercalate ", " (xs.map (fun s => "'" ++ s ++ "'")) ++ "]"

/-- The response-structure check of `translate_query` (lines 362-366): every
required field must be present, else `ValueError` (whose `str` is the final
message if this was the last attempt); on success the artifact passed to the
validator is the `(rule_yaml, test_yaml)` pair. -/
def extractQueryArtifact (data : Dict) : Except String (Json × Json) :=
  let missing := requiredQueryFields.filter (fun k => !(dictHas data k))
  if missing.isEmpty then
    .ok ((dictLookup data "rule_yaml").getD .null, (dictLookup data "test_yaml").getD .null)
  else
    .error ("Missing required fields: " ++ pyStrListRepr missing)

/-- The response-structure check of `translate_dashboard` (lines 446-456):
`grafana_dashboard` must be present and be an object. -/
def extractDashboardArtifact (data : Dict) : Except String Dict :=
  if !(dictHas data "grafana_dashboard") then
    .error "Missing 'grafana_dashboard' in response"
  else
    match (dictLookup data "grafana_dashboard").getD .null with
    | .obj fields => .ok fields
    | _ => .error "Dashboard is not a valid JSON object"

/-- The corrective user turn of `translate_query` (lines 385-397). -/
def queryCorrectiveMessage (logs : String) : String :=
  "The previous output failed validation with these errors:\n\n" ++ logs ++
  "\n\nFix the errors and generate valid YAML. Make sure:\n" ++
  "1. YAML is properly indented (use spaces, not tabs)\n" ++
  "2. Strings with special characters are quoted\n" ++
  "3. Test cases use valid time series format\n" ++
  "4. Alert expressions are valid PromQL\n" ++
  "5. eval_time in tests is greater than the alert's 'for' duration"

/-- The corrective user turn of `translate_dashboard` (lines 470-483). -/
def dashboardCorrectiveMessage (logs : String) : String :=
  "The dashboard failed schema validation with these errors:\n\n" ++ logs ++
  "\n\nFix the errors and regenerate a valid Grafana dashboard. Make sure:\n" ++
  "1. All required fields are present (title, panels, etc.)\n" ++
  "2. Each panel has: id, type, title, gridPos, targets\n" ++
  "3. gridPos includes: x, y, w, h\n" ++
  "4. Each target has: expr (or query) and refId\n" ++
  "5. Panel IDs are unique integers\n" ++
  "6. Queries use valid PromQL syntax"

/-- Stand-in for the fixed `QUERY_TRANSLATION_PROMPT` system-prompt text
(agent.py lines 13-51); its content is a static instruction document and no
claim depends on it, only on its position as the initial system message. -/
def QUERY_TRANSLATION_PROMPT : String :=
  "You are an Expert SRE at Grafana Labs. Your role is to migrate monitoring queries from Datadog to Prometheus. [fixed instruction text elided]"

/-- Stand-in for the fixed `DASHBOARD_TRANSLATION_PROMPT` system-prompt text
(agent.py lines 54-122); same remark as for `QUERY_TRANSLATION_PROMPT`. -/
def DASHBOARD_TRANSLATION_PROMPT : String :=
  "You are a Staff SRE at Grafana Labs. Your role is to migrate Datadog dashboards to Grafana. [fixed instruction text elided]"

/-- `MigrationAgent.translate_query(datadog_query, max_retries)`: the rule
validator is the oracle `promtool`, a function of the `rule_yaml` and
`test_yaml` values handed to it. -/
def translate_query (gen : List Message → GenResult)
    (promtool : Json → Json → Bool × String)
    (datadog_query : String) (max_retries : Nat) :
    RunResult × List AttemptEvent :=
  runLoop gen extractQueryArtifact (fun a => promtool a.1 a.2) queryCorrectiveMessage
    max_retries 1
    [⟨"system", QUERY_TRANSLATION_PROMPT⟩,
     ⟨"user", "Translate this monitoring query:\n" ++ datadog_query⟩]

/-- `MigrationAgent.translate_dashboard(datadog_dashboard_json, max_retries)`:
the validator is the in-process `validate_grafana_dashboard`. -/
def translate_dashboard (gen : List Message → GenResult)
    (datadog_dashboard_json : String) (max_retries : Nat) :
    RunResult × List AttemptEvent :=
  runLoop gen extractDashboardArtifact validate_grafana_dashboard dashboardCorrectiveMessage
    max_retries 1
    [⟨"system", DASHBOARD_TRANSLATION_PROMPT⟩,
     ⟨"user", "Translate this Datadog dashboard to Grafana:\n" ++ datadog_dashboard_json⟩]

/-! ## Concrete inputs used by the claim witnesses -/

/-- The spec's minimal valid dashboard
`{title:"T", panels:[{id, type, title, gridPos:{x,y,w,h}, targets:[{expr, refId}]}]}`. -/
def minimalDashboard : Dict :=
  [("title", .str "T"),
   ("panels", .arr [.obj
     [("id", .num 1), ("type", .str "timeseries"), ("title", .str "P"),
      ("gridPos", .obj [("x", .num 0), ("y", .num 0), ("w", .num 12), ("h", .num 8)]),
      ("targets", .arr [.obj [("expr", .str "up"), ("refId", .str "A")]])]])]

/-- A deterministic stub generator returning a complete query candidate. -/
def wGenQuery : List Message → GenResult := fun _ =>
  .parsed "c" [("reasoning", .str "r"), ("rule_yaml", .str "a"), ("test_yaml", .str "b")]

/-- The candidate data `wGenQuery` produces. -/
def wQueryData : Dict :=
  [("reasoning", .str "r"), ("rule_yaml", .str "a"), ("test_yaml", .str "b")]

/-- A stub generator returning a candidate with only a `reasoning` field. -/
def wGenMissing : List Message → GenResult := fun _ =>
  .parsed "c" [("reasoning", .str "r")]

/-- A stub generator returning a dashboard candidate without `reasoning`. -/
def wGenDashOnly : List Message → GenResult := fun _ =>
  .parsed "c" [("grafana_dashboard", .obj minimalDashboard)]

/-- A stub rule validator that always passes. -/
def wValPass : Json → Json → Bool × String := fun _ _ => (true, "OK")

/-- A stub rule validator that always fails. -/
def wValFail : Json → Json → Bool × String := fun _ _ => (false, "BAD")

/-! ## General lemmas about the retry loop -/

theorem runLoop_trace_nonempty {α : Type} (gen : List Message → GenResult)
    (ex : Dict → Except String α) (va : α → Bool × String) (co : String → String)
    (fuel attempt : Nat) (msgs : List Message) (h : 1 ≤ fuel) :
    (runLoop gen ex va co fuel attempt msgs).2 ≠ [] := by
  match fuel with
  | 0 => omega
  | f + 1 =>
    simp only [runLoop]
    split
    · split <;> simp
    · split <;> simp
    · split
      · split <;> simp
      · split
        · simp
        · split <;> simp

theorem runLoop_conversation {α : Type} (gen : List Message → GenResult)
    (ex : Dict → Except String α) (va : α → Bool × String) (co : String → String) :
    ∀ (fuel attempt : Nat) (msgs : List Message),
      ∀ ev ∈ (runLoop gen ex va co fuel attempt msgs).2,
      (∀ c d l, ev.gen = .parsed c d → ev.verdict = some (false, l) → ev.isFinal = false →
        ev.msgsAfter = ev.msgsBefore ++ [⟨"assistant", c⟩, ⟨"user", co l⟩]) ∧
      (¬(ev.verdict.map Prod.fst = some false ∧ ev.isFinal = false) →
        ev.msgsAfter = ev.msgsBefore) := by
  intro fuel
  induction fuel with
  | zero => intro attempt msgs ev hmem; simp [runLoop] at hmem
  | succ f ih =>
    intro attempt msgs ev hmem
    simp only [runLoop] at hmem
    split at hmem
    · split at hmem
      · simp at hmem; subst hmem; simp
      · rcases List.mem_cons.mp hmem with rfl | h
        · simp
        · exact ih (attempt + 1) msgs ev h
    · split at hmem
      · simp at hmem; subst hmem; simp
      · rcases List.mem_cons.mp hmem with rfl | h
        · simp
        · exact ih (attempt + 1) msgs ev h
    · split at hmem
      · split at hmem
        · simp at hmem; subst hmem; simp
        · rcases List.mem_cons.mp hmem with rfl | h
          · simp
          · exact ih (attempt + 1) msgs ev h
      · split at hmem
        · simp at hmem; subst hmem
          constructor
          · intro c d l hg hv; simp at hv
          · intro _; simp
        · split at hmem
          · simp at hmem; subst hmem
            constructor
            · intro c d l hg hv hf; simp at hf
            · intro _; simp
          · rcases List.mem_cons.mp hmem with rfl | h
            · constructor
              · intro c d l hg hv _
                simp only [AttemptEvent.gen, GenResult.parsed.injEq] at hg
                obtain ⟨rfl, rfl⟩ := hg
                simp only [AttemptEvent.verdict, Option.some.injEq, Prod.mk.injEq] at hv
                obtain ⟨-, rfl⟩ := hv
                rfl
              · intro hno; exact absurd (by simp) hno
            · exact ih (attempt + 1) _ ev h

theorem getLast?_cons_of_ne_nil {α : Type} {a : α} {l : List α} (h : l ≠ []) :
    (a :: l).getLast? = l.getLast? := by
  cases l with
  | nil => exact absurd rfl h
  | cons b bs => exact List.getLast?_cons_cons

theorem runLoop_verdict_from_validator {α : Type} (gen : List Message → GenResult)
    (ex : Dict → Except String α) (va : α → Bool × String) (co : String → String) :
    ∀ (fuel attempt : Nat) (msgs : List Message),
      ∀ ev ∈ (runLoop gen ex va co fuel attempt msgs).2, ∀ v, ev.verdict = some v →
      ∃ c d art, ev.gen = .parsed c d ∧ ex d = .ok art ∧ va art = v := by
  intro fuel
  induction fuel with
  | zero => intro attempt msgs ev hmem; simp [runLoop] at hmem
  | succ f ih =>
    intro attempt msgs ev hmem v hv
    simp only [runLoop] at hmem
    split at hmem
    · split at hmem
      · simp at hmem; subst hmem; simp at hv
      · rcases List.mem_cons.mp hmem with rfl | h
        · simp at hv
        · exact ih _ _ ev h v hv
    · split at hmem
      · simp at hmem; subst hmem; simp at hv
      · rcases List.mem_cons.mp hmem with rfl | h
        · simp at hv
        · exact ih _ _ ev h v hv
    · rename_i content data hgen
      split at hmem
      · split at hmem
        · simp at hmem; subst hmem; simp at hv
        · rcases List.mem_cons.mp hmem with rfl | h
          · simp at hv
          · exact ih _ _ ev h v hv
      · rename_i artifact hex
        split at hmem
        · rename_i logs hva
          simp at hmem; subst hmem
          simp only [AttemptEvent.verdict, Option.some.injEq] at hv
          subst hv
          exact ⟨content, data, artifact, rfl, hex, hva⟩
        · rename_i logs hva
          split at hmem
          · simp at hmem; subst hmem
            simp only [AttemptEvent.verdict, Option.some.injEq] at hv
            subst hv
            exact ⟨content, data, artifact, rfl, hex, hva⟩
          · rcases List.mem_cons.mp hmem with rfl | h
            · simp only [AttemptEvent.verdict, Option.some.injEq] at hv
              subst hv
              exact ⟨content, data, artifact, rfl, hex, hva⟩
            · exact ih _ _ ev h v hv

theorem runLoop_pass_terminal {α : Type} (gen : List Message → GenResult)
    (ex : Dict → Except String α) (va : α → Bool × String) (co : String → String) :
    ∀ (fuel attempt : Nat) (msgs : List Message) (ev : AttemptEvent) (c : String)
      (d : Dict) (l : String), ev ∈ (runLoop gen ex va co fuel attempt msgs).2 →
      ev.verdict = some (true, l) → ev.gen = .parsed c d →
      (runLoop gen ex va co fuel attempt msgs).2.getLast? = some ev ∧
      (runLoop gen ex va co fuel attempt msgs).1 = ⟨true, some d, l⟩ := by
  intro fuel
  induction fuel with
  | zero => intro attempt msgs ev c d l hmem; simp [runLoop] at hmem
  | succ f ih =>
    intro attempt msgs ev c d l hmem hv hg
    simp only [runLoop] at hmem ⊢
    cases hgen : gen msgs with
    | apiError e =>
      simp only [hgen] at hmem ⊢
      by_cases h0 : f = 0
      · simp only [if_pos h0] at hmem; simp at hmem; subst hmem; simp at hv
      · simp only [if_neg h0] at hmem ⊢
        rcases List.mem_cons.mp hmem with rfl | h
        · simp at hv
        · have hr := ih _ _ ev c d l h hv hg
          exact ⟨by rw [getLast?_cons_of_ne_nil (List.ne_nil_of_mem h)]; exact hr.1, hr.2⟩
    | jsonError e =>
      simp only [hgen] at hmem ⊢
      by_cases h0 : f = 0
      · simp only [if_pos h0] at hmem; simp at hmem; subst hmem; simp at hv
      · simp only [if_neg h0] at hmem ⊢
        rcases List.mem_cons.mp hmem with rfl | h
        · simp at hv
        · have hr := ih _ _ ev c d l h hv hg
          exact ⟨by rw [getLast?_cons_of_ne_nil (List.ne_nil_of_mem h)]; exact hr.1, hr.2⟩
    | parsed content data =>
      simp only [hgen] at hmem ⊢
      cases hex : ex data with
      | error e =>
        simp only [hex] at hmem ⊢
        by_cases h0 : f = 0
        · simp only [if_pos h0] at hmem; simp at hmem; subst hmem; simp at hv
        · simp only [if_neg h0] at hmem ⊢
          rcases List.mem_cons.mp hmem with rfl | h
          · simp at hv
          · have hr := ih _ _ ev c d l h hv hg
            exact ⟨by rw [getLast?_cons_of_ne_nil (List.ne_nil_of_mem h)]; exact hr.1, hr.2⟩
      | ok artifact =>
        simp only [hex] at hmem ⊢
        cases hva : va artifact with
        | mk vb vlogs =>
          cases vb with
          | false =>
            simp only [hva] at hmem ⊢
            by_cases h0 : f = 0
            · simp only [if_pos h0] at hmem; simp at hmem; subst hmem; simp at hv
            · simp only [if_neg h0] at hmem ⊢
              rcases List.mem_cons.mp hmem with rfl | h
              · simp at hv
              · have hr := ih _ _ ev c d l h hv hg
                exact ⟨by rw [getLast?_cons_of_ne_nil (List.ne_nil_of_mem h)]; exact hr.1, hr.2⟩
          | true =>
            simp only [hva] at hmem ⊢
            simp at hmem; subst hmem
            simp only [AttemptEvent.verdict, Option.some.injEq, Prod.mk.injEq] at hv
            simp only [AttemptEvent.gen, GenResult.parsed.injEq] at hg
            obtain ⟨-, rfl⟩ := hv
            obtain ⟨-, rfl⟩ := hg
            simp

theorem runLoop_all_failed {α : Type} (gen : List Message → GenResult)
    (ex : Dict → Except String α) (va : α → Bool × String) (co : String → String) :
    ∀ (fuel attempt : Nat) (msgs : List Message), 1 ≤ fuel →
      (∀ ev ∈ (runLoop gen ex va co fuel attempt msgs).2,
        ev.verdict.map Prod.fst = some false) →
      ∀ (ev : AttemptEvent) (c : String) (d : Dict) (l : String),
      (runLoop gen ex va co fuel attempt msgs).2.getLast? = some ev →
      ev.gen = .parsed c d → ev.verdict = some (false, l) →
      (runLoop gen ex va co fuel attempt msgs).1 = ⟨false, some d, l⟩ := by
  intro fuel
  induction fuel with
  | zero => intro attempt msgs h; omega
  | succ f ih =>
    intro attempt msgs hf hall ev c d l hlast hg hv
    simp only [runLoop] at hall hlast ⊢
    cases hgen : gen msgs with
    | apiError e =>
      simp only [hgen] at hall
      by_cases h0 : f = 0
      · simp only [if_pos h0] at hall
        have := hall _ (List.mem_singleton_self _); simp at this
      · simp only [if_neg h0] at hall
        have := hall _ (List.mem_cons_self _ _); simp at this
    | jsonError e =>
      simp only [hgen] at hall
      by_cases h0 : f = 0
      · simp only [if_pos h0] at hall
        have := hall _ (List.mem_singleton_self _); simp at this
      · simp only [if_neg h0] at hall
        have := hall _ (List.mem_cons_self _ _); simp at this
    | parsed content data =>
      simp only [hgen] at hall hlast ⊢
      cases hex : ex data with
      | error e =>
        simp only [hex] at hall
        by_cases h0 : f = 0
        · simp only [if_pos h0] at hall
          have := hall _ (List.mem_singleton_self _); simp at this
        · simp only [if_neg h0] at hall
          have := hall _ (List.mem_cons_self _ _); simp at this
      | ok artifact =>
        simp only [hex] at hall hlast ⊢
        cases hva : va artifact with
        | mk vb vlogs =>
          cases vb with
          | true =>
            simp only [hva] at hall
            have := hall _ (List.mem_singleton_self _); simp at this
          | false =>
            simp only [hva] at hall hlast ⊢
            by_cases h0 : f = 0
            · simp only [if_pos h0] at hall hlast ⊢
              simp at hlast; subst hlast
              simp only [AttemptEvent.verdict, Option.some.injEq, Prod.mk.injEq] at hv
              simp only [AttemptEvent.gen, GenResult.parsed.injEq] at hg
              obtain ⟨-, rfl⟩ := hv
              obtain ⟨-, rfl⟩ := hg
              rfl
            · simp only [if_neg h0] at hall hlast ⊢
              have hne := runLoop_trace_nonempty gen ex va co f (attempt + 1)
                (msgs ++ [⟨"assistant", content⟩, ⟨"user", co vlogs⟩]) (by omega)
              rw [getLast?_cons_of_ne_nil hne] at hlast
              exact ih (attempt + 1) _ (by omega)
                (fun e he => hall e (List.mem_cons_of_mem _ he)) ev c d l hlast hg hv

/-! ## Auxiliary lemmas -/

theorem append_ne_nil_of_left {α : Type} {xs ys : List α} (h : xs ≠ []) : xs ++ ys ≠ [] := by
  cases xs with
  | nil => exact absurd rfl h
  | cons a as => simp

theorem append_ne_nil_of_right {α : Type} {xs ys : List α} (h : ys ≠ []) : xs ++ ys ≠ [] := by
  intro hc
  exact h (List.append_eq_nil.mp hc).2

theorem panelListErrorsFrom_ne_nil {ps : List Json} {p : Json} (hp : p ∈ ps)
    (h : ∀ i, panelErrors i p ≠ []) : ∀ i, panelListErrorsFrom i ps ≠ [] := by
  induction ps with
  | nil => cases hp
  | cons q qs ih =>
    intro i
    rcases List.mem_cons.mp hp with rfl | hp₂
    · exact append_ne_nil_of_left (h i)
    · exact append_ne_nil_of_right (ih hp₂ (i + 1))

theorem targetListErrorsFrom_ne_nil {ts : List Json} {t : Json} (ht : t ∈ ts)
    (h : ∀ i j, targetErrors i j t ≠ []) : ∀ i j, targetListErrorsFrom i j ts ≠ [] := by
  induction ts with
  | nil => cases ht
  | cons u us ih =>
    intro i j
    rcases List.mem_cons.mp ht with rfl | ht₂
    · exact append_ne_nil_of_left (h i j)
    · exact append_ne_nil_of_right (ih ht₂ i (j + 1))

theorem validate_fails_of_panelPhaseErrors (d : Dict)
    (h : panelPhaseErrors d ≠ []) : (validate_grafana_dashboard d).1 = false := by
  unfold validate_grafana_dashboard
  by_cases hreq : (requiredFieldErrors d).isEmpty
  · simp only [hreq, Bool.not_true, Bool.false_eq_true, if_false]
    have : (panelPhaseErrors d).isEmpty = false := by
      cases hl : panelPhaseErrors d with
      | nil => exact absurd hl h
      | cons a as => simp
    simp [this]
  · simp only [Bool.not_eq_true'] at hreq
    simp [hreq]

theorem extractQueryArtifact_ok_has {d : Dict} {a : Json × Json}
    (h : extractQueryArtifact d = .ok a) :
    dictHas d "reasoning" = true ∧ dictHas d "rule_yaml" = true ∧
    dictHas d "test_yaml" = true := by
  unfold extractQueryArtifact at h
  by_cases hm : ((requiredQueryFields.filter (fun k => !(dictHas d k))).isEmpty : Bool)
  · have hnil : requiredQueryFields.filter (fun k => !(dictHas d k)) = [] :=
      List.isEmpty_iff.mp hm
    have hall := List.filter_eq_nil_iff.mp hnil
    refine ⟨?_, ?_, ?_⟩
    · have := hall "reasoning" (by simp [requiredQueryFields])
      simpa using this
    · have := hall "rule_yaml" (by simp [requiredQueryFields])
      simpa using this
    · have := hall "test_yaml" (by simp [requiredQueryFields])
      simpa using this
  · simp [hm] at h

theorem extractDashboardArtifact_ok_has {d : Dict} {a : Dict}
    (h : extractDashboardArtifact d = .ok a) :
    dictHas d "grafana_dashboard" = true := by
  unfold extractDashboardArtifact at h
  by_cases hm : dictHas d "grafana_dashboard"
  · exact hm
  · simp [hm] at h

theorem runLoop_length {α : Type} (gen : List Message → GenResult)
    (ex : Dict → Except String α) (va : α → Bool × String) (co : String → String) :
    ∀ (fuel attempt : Nat) (msgs : List Message),
      (runLoop gen ex va co fuel attempt msgs).2.length ≤ fuel := by
  intro fuel
  induction fuel with
  | zero => intro attempt msgs; simp [runLoop]
  | succ f ih =>
    intro attempt msgs
    simp only [runLoop]
    split
    · split
      · simp
      · simpa using ih (attempt + 1) msgs
    · split
      · simp
      · simpa using ih (attempt + 1) msgs
    · split
      · split
        · simp
        · simpa using ih (attempt + 1) msgs
      · split
        · simp
        · split
          · simp
          · simpa using ih (attempt + 1) _

/-! ## The claims -/

/-- C1: the Dashboard Validator returns a failing verdict whenever the
dashboard has zero panels, whenever some panel has an empty `targets` list,
or whenever some target carries neither an `expr` nor a `query` field. -/
theorem claim_C1_invalid_dashboard_shapes_fail (d : Dict) (ps : List Json)
    (hps : dictLookup d "panels" = some (.arr ps))
    (h : ps = [] ∨
      (∃ p ∈ ps, jsonGet p "targets" = some (.arr [])) ∨
      (∃ p ∈ ps, ∃ ts, jsonGet p "targets" = some (.arr ts) ∧
        ∃ t ∈ ts, jsonHasKey t "expr" = false ∧ jsonHasKey t "query" = false)) :
    (validate_grafana_dashboard d).1 = false := by
  apply validate_fails_of_panelPhaseErrors
  have hget : getPanels d = ps := by simp [getPanels, hps]
  rcases h with rfl | ⟨p, hp, htg⟩ | ⟨p, hp, ts, htg, t, ht, hexpr, hquery⟩
  · unfold panelPhaseErrors
    rw [hget]
    exact append_ne_nil_of_left (by simp)
  · unfold panelPhaseErrors
    rw [hget]
    apply append_ne_nil_of_right
    refine panelListErrorsFrom_ne_nil hp (fun i => ?_) 0
    unfold panelErrors
    apply append_ne_nil_of_right
    simp [targetsErrors, htg]
  · unfold panelPhaseErrors
    rw [hget]
    apply append_ne_nil_of_right
    refine panelListErrorsFrom_ne_nil hp (fun i => ?_) 0
    unfold panelErrors
    apply append_ne_nil_of_right
    have hts : ts ≠ [] := List.ne_nil_of_mem ht
    have hEmpty : ts.isEmpty = false := by
      cases ts with
      | nil => exact absurd rfl hts
      | cons a as => rfl
    rw [show targetsErrors i p = targetListErrorsFrom i 0 ts by
      simp [targetsErrors, htg, hEmpty]]
    refine targetListErrorsFrom_ne_nil ht (fun i j => ?_) i 0
    unfold targetErrors
    apply append_ne_nil_of_left
    simp [hexpr, hquery]

theorem claim_C1_witness :
    dictLookup [("title", Json.str "T"), ("panels", Json.arr [])] "panels" =
      some (.arr []) ∧
    (validate_grafana_dashboard [("title", Json.str "T"), ("panels", Json.arr [])]).1 =
      false :=
  ⟨rfl, claim_C1_invalid_dashboard_shapes_fail _ [] rfl (Or.inl rfl)⟩

/-- C2 (amended): a query candidate missing any of `reasoning`, `rule_yaml`
or `test_yaml` is rejected before the rule validator is invoked; a dashboard
candidate missing `grafana_dashboard` is rejected before the dashboard
validator is invoked (a dashboard candidate missing only `reasoning` is NOT
rejected — see the counterexample). -/
theorem claim_C2_missing_fields_reject_before_validation
    (gen gen2 : List Message → GenResult) (promtool : Json → Json → Bool × String)
    (q dj : String) (mq mdb : Nat) :
    (∀ ev ∈ (translate_query gen promtool q mq).2, ∀ c d, ev.gen = .parsed c d →
      (dictHas d "reasoning" = false ∨ dictHas d "rule_yaml" = false ∨
       dictHas d "test_yaml" = false) →
      ev.verdict = none) ∧
    (∀ ev ∈ (translate_dashboard gen2 dj mdb).2, ∀ c d, ev.gen = .parsed c d →
      dictHas d "grafana_dashboard" = false →
      ev.verdict = none) := by
  constructor
  · intro ev hmem c d hg hmissing
    cases hvd : ev.verdict with
    | none => rfl
    | some v =>
      exfalso
      obtain ⟨c₂, d₂, art, hg₂, hex, -⟩ :=
        runLoop_verdict_from_validator gen extractQueryArtifact
          (fun a => promtool a.1 a.2) queryCorrectiveMessage mq 1 _ ev hmem v hvd
      rw [hg] at hg₂
      simp only [GenResult.parsed.injEq] at hg₂
      obtain ⟨-, rfl⟩ := hg₂
      have h3 := extractQueryArtifact_ok_has hex
      rcases hmissing with hm | hm | hm
      · rw [hm] at h3; simp at h3
      · rw [hm] at h3; simp at h3
      · rw [hm] at h3; simp at h3
  · intro ev hmem c d hg hmissing
    cases hvd : ev.verdict with
    | none => rfl
    | some v =>
      exfalso
      obtain ⟨c₂, d₂, art, hg₂, hex, -⟩ :=
        runLoop_verdict_from_validator gen2 extractDashboardArtifact
          validate_grafana_dashboard dashboardCorrectiveMessage mdb 1 _ ev hmem v hvd
      rw [hg] at hg₂
      simp only [GenResult.parsed.injEq] at hg₂
      obtain ⟨-, rfl⟩ := hg₂
      have h1 := extractDashboardArtifact_ok_has hex
      rw [hmissing] at h1
      simp at h1

theorem claim_C2_witness :
    (translate_query wGenMissing wValPass "q" 1).2.headI.gen =
      .parsed "c" [("reasoning", Json.str "r")] ∧
    dictHas [("reasoning", Json.str "r")] "rule_yaml" = false ∧
    (translate_query wGenMissing wValPass "q" 1).2.headI.verdict = none ∧
    (translate_dashboard wGenMissing "d" 1).2.headI.verdict = none :=
  ⟨rfl, rfl,
   (claim_C2_missing_fields_reject_before_validation wGenMissing wGenMissing wValPass
      "q" "d" 1 1).1 _ (List.Mem.head _) "c" _ rfl (Or.inr (Or.inl rfl)),
   (claim_C2_missing_fields_reject_before_validation wGenMissing wGenMissing wValPass
      "q" "d" 1 1).2 _ (List.Mem.head _) "c" _ rfl rfl⟩

/-- C2 counterexample: a dashboard candidate carrying `grafana_dashboard` but
no `reasoning` field is not rejected — its one attempt reaches the validator
(the verdict is recorded), contradicting the claim that a candidate missing
`reasoning` is rejected before validation. -/
theorem claim_C2_counterexample :
    dictHas [("grafana_dashboard", Json.obj minimalDashboard)] "reasoning" = false ∧
    (translate_dashboard wGenDashOnly "d" 2).2.map (fun e => e.verdict.isSome) =
      [true] :=
  ⟨rfl, rfl⟩

/-- C3: in both operations, the corrective pair (the prior assistant
completion, then a user turn holding the diagnostic log inside the fixed fix
checklist) is appended exactly after a failing verdict on a non-final
attempt; after an adapter/JSON/missing-field failure, a passing verdict or a
final attempt the conversation is left unchanged. -/
theorem claim_C3_corrective_only_after_failing_verdict
    (gen gen2 : List Message → GenResult) (promtool : Json → Json → Bool × String)
    (q dj : String) (mq mdb : Nat) :
    (∀ ev ∈ (translate_query gen promtool q mq).2,
      (∀ c d l, ev.gen = .parsed c d → ev.verdict = some (false, l) →
        ev.isFinal = false →
        ev.msgsAfter = ev.msgsBefore ++
          [⟨"assistant", c⟩, ⟨"user", queryCorrectiveMessage l⟩]) ∧
      (¬(ev.verdict.map Prod.fst = some false ∧ ev.isFinal = false) →
        ev.msgsAfter = ev.msgsBefore)) ∧
    (∀ ev ∈ (translate_dashboard gen2 dj mdb).2,
      (∀ c d l, ev.gen = .parsed c d → ev.verdict = some (false, l) →
        ev.isFinal = false →
        ev.msgsAfter = ev.msgsBefore ++
          [⟨"assistant", c⟩, ⟨"user", dashboardCorrectiveMessage l⟩]) ∧
      (¬(ev.verdict.map Prod.fst = some false ∧ ev.isFinal = false) →
        ev.msgsAfter = ev.msgsBefore)) :=
  ⟨fun ev hmem => runLoop_conversation gen extractQueryArtifact
      (fun a => promtool a.1 a.2) queryCorrectiveMessage mq 1 _ ev hmem,
   fun ev hmem => runLoop_conversation gen2 extractDashboardArtifact
      validate_grafana_dashboard dashboardCorrectiveMessage mdb 1 _ ev hmem⟩

theorem claim_C3_witness :
    (translate_query wGenQuery wValFail "q" 2).2.headI.gen = .parsed "c" wQueryData ∧
    (translate_query wGenQuery wValFail "q" 2).2.headI.verdict = some (false, "BAD") ∧
    (translate_query wGenQuery wValFail "q" 2).2.headI.isFinal = false ∧
    (translate_query wGenQuery wValFail "q" 2).2.headI.msgsAfter =
      (translate_query wGenQuery wValFail "q" 2).2.headI.msgsBefore ++
        [⟨"assistant", "c"⟩, ⟨"user", queryCorrectiveMessage "BAD"⟩] :=
  ⟨rfl, rfl, rfl,
   ((claim_C3_corrective_only_after_failing_verdict wGenQuery wGenQuery wValFail
       "q" "d" 2 2).1 _ (List.Mem.head _)).1 "c" wQueryData "BAD" rfl rfl rfl⟩

/-- C4: with any configured bound, a run of either operation invokes the
generator at most `max_retries` times (the trace records one event per
generator invocation). -/
theorem claim_C4_attempt_bound
    (gen gen2 : List Message → GenResult) (promtool : Json → Json → Bool × String)
    (q dj : String) (mq mdb : Nat) (hq : 1 ≤ mq) (hd : 1 ≤ mdb) :
    (translate_query gen promtool q mq).2.length ≤ mq ∧
    (translate_dashboard gen2 dj mdb).2.length ≤ mdb :=
  ⟨runLoop_length gen extractQueryArtifact (fun a => promtool a.1 a.2)
      queryCorrectiveMessage mq 1 _,
   runLoop_length gen2 extractDashboardArtifact validate_grafana_dashboard
      dashboardCorrectiveMessage mdb 1 _⟩

theorem claim_C4_witness :
    1 ≤ 3 ∧ 1 ≤ 2 ∧
    (translate_query wGenQuery wValFail "q" 3).2.length ≤ 3 ∧
    (translate_dashboard wGenDashOnly "d" 2).2.length ≤ 2 :=
  ⟨by decide, by decide,
   (claim_C4_attempt_bound wGenQuery wGenDashOnly wValFail "q" "d" 3 2
      (by decide) (by decide)).1,
   (claim_C4_attempt_bound wGenQuery wGenDashOnly wValFail "q" "d" 3 2
      (by decide) (by decide)).2⟩

/-- C5: if an attempt's verdict passes, that attempt is the run's last
generator invocation and the run returns `success = true` with that
attempt's candidate and that verdict's log. -/
theorem claim_C5_pass_stops_and_returns
    (gen gen2 : List Message → GenResult) (promtool : Json → Json → Bool × String)
    (q dj : String) (mq mdb : Nat) :
    (∀ (ev : AttemptEvent) (c : String) (d : Dict) (l : String),
      ev ∈ (translate_query gen promtool q mq).2 →
      ev.verdict = some (true, l) → ev.gen = .parsed c d →
      (translate_query gen promtool q mq).2.getLast? = some ev ∧
      (translate_query gen promtool q mq).1 = ⟨true, some d, l⟩) ∧
    (∀ (ev : AttemptEvent) (c : String) (d : Dict) (l : String),
      ev ∈ (translate_dashboard gen2 dj mdb).2 →
      ev.verdict = some (true, l) → ev.gen = .parsed c d →
      (translate_dashboard gen2 dj mdb).2.getLast? = some ev ∧
      (translate_dashboard gen2 dj mdb).1 = ⟨true, some d, l⟩) :=
  ⟨fun ev c d l hmem hv hg => runLoop_pass_terminal gen extractQueryArtifact
      (fun a => promtool a.1 a.2) queryCorrectiveMessage mq 1 _ ev c d l hmem hv hg,
   fun ev c d l hmem hv hg => runLoop_pass_terminal gen2 extractDashboardArtifact
      validate_grafana_dashboard dashboardCorrectiveMessage mdb 1 _ ev c d l hmem hv hg⟩

theorem claim_C5_witness :
    (translate_query wGenQuery wValPass "q" 3).2.headI.verdict = some (true, "OK") ∧
    (translate_query wGenQuery wValPass "q" 3).2.headI.gen = .parsed "c" wQueryData ∧
    (translate_query wGenQuery wValPass "q" 3).2.getLast? =
      some (translate_query wGenQuery wValPass "q" 3).2.headI ∧
    (translate_query wGenQuery wValPass "q" 3).1 = ⟨true, some wQueryData, "OK"⟩ :=
  ⟨rfl, rfl,
   ((claim_C5_pass_stops_and_returns wGenQuery wGenQuery wValPass "q" "d" 3 3).1
      _ "c" wQueryData "OK" (List.Mem.head _) rfl rfl).1,
   ((claim_C5_pass_stops_and_returns wGenQuery wGenQuery wValPass "q" "d" 3 3).1
      _ "c" wQueryData "OK" (List.Mem.head _) rfl rfl).2⟩

/-- C6: when every attempt of a run reaches validation and fails, the run
returns `success = false` together with the last attempt's candidate and
that attempt's verdict log verbatim. -/
theorem claim_C6_all_fail_returns_last
    (gen gen2 : List Message → GenResult) (promtool : Json → Json → Bool × String)
    (q dj : String) (mq mdb : Nat) (hq : 1 ≤ mq) (hd : 1 ≤ mdb) :
    ((∀ ev ∈ (translate_query gen promtool q mq).2,
        ev.verdict.map Prod.fst = some false) →
      ∀ (ev : AttemptEvent) (c : String) (d : Dict) (l : String),
      (translate_query gen promtool q mq).2.getLast? = some ev →
      ev.gen = .parsed c d → ev.verdict = some (false, l) →
      (translate_query gen promtool q mq).1 = ⟨false, some d, l⟩) ∧
    ((∀ ev ∈ (translate_dashboard gen2 dj mdb).2,
        ev.verdict.map Prod.fst = some false) →
      ∀ (ev : AttemptEvent) (c : String) (d : Dict) (l : String),
      (translate_dashboard gen2 dj mdb).2.getLast? = some ev →
      ev.gen = .parsed c d → ev.verdict = some (false, l) →
      (translate_dashboard gen2 dj mdb).1 = ⟨false, some d, l⟩) :=
  ⟨fun hall ev c d l => runLoop_all_failed gen extractQueryArtifact
      (fun a => promtool a.1 a.2) queryCorrectiveMessage mq 1 _ hq hall ev c d l,
   fun hall ev c d l => runLoop_all_failed gen2 extractDashboardArtifact
      validate_grafana_dashboard dashboardCorrectiveMessage mdb 1 _ hd hall ev c d l⟩

theorem claim_C6_witness :
    1 ≤ 1 ∧
    (translate_query wGenQuery wValFail "q" 1).2.getLast? =
      some (translate_query wGenQuery wValFail "q" 1).2.headI ∧
    (translate_query wGenQuery wValFail "q" 1).2.headI.gen = .parsed "c" wQueryData ∧
    (translate_query wGenQuery wValFail "q" 1).2.headI.verdict = some (false, "BAD") ∧
    (translate_query wGenQuery wValFail "q" 1).1 = ⟨false, some wQueryData, "BAD"⟩ :=
  ⟨by decide, rfl, rfl, rfl,
   (claim_C6_all_fail_returns_last wGenQuery wGenQuery wValFail "q" "d" 1 1
      (by decide) (by decide)).1
     (fun ev hmem => by rcases List.mem_singleton.mp hmem with rfl; rfl)
     _ "c" wQueryData "BAD" rfl rfl rfl⟩

/-- C9: a missing or mistyped required top-level field (`title` as text,
`panels` as a sequence) yields an immediate failing verdict whose log is
exactly the header plus the bulleted list of all top-level violations, so no
panel-level check contributes to it. -/
theorem claim_C9_toplevel_failure_shortcircuits (d : Dict)
    (h : dictLookup d "title" = none ∨
      (∃ v, dictLookup d "title" = some v ∧ v.isStr = false) ∨
      dictLookup d "panels" = none ∨
      (∃ v, dictLookup d "panels" = some v ∧ v.isList = false)) :
    validate_grafana_dashboard d =
      (false, "❌ Dashboard Schema Validation: FAILED\n\n" ++
        bulleted (requiredFieldErrors d)) := by
  have hne : requiredFieldErrors d ≠ [] := by
    unfold requiredFieldErrors
    rcases h with h | ⟨v, hv, hs⟩ | h | ⟨v, hv, hs⟩
    · exact append_ne_nil_of_left (by simp [checkRequiredField, h])
    · exact append_ne_nil_of_left (by simp [checkRequiredField, hv, hs])
    · exact append_ne_nil_of_right (by simp [checkRequiredField, h])
    · exact append_ne_nil_of_right (by simp [checkRequiredField, hv, hs])
  have hEmpty : (requiredFieldErrors d).isEmpty = false := by
    cases hl : requiredFieldErrors d with
    | nil => exact absurd hl hne
    | cons a as => rfl
  unfold validate_grafana_dashboard
  simp [hEmpty]

theorem claim_C9_witness :
    (∃ v, dictLookup [("title", Json.num 3)] "title" = some v ∧ v.isStr = false) ∧
    validate_grafana_dashboard [("title", Json.num 3)] =
      (false, "❌ Dashboard Schema Validation: FAILED\n\n" ++
        bulleted (requiredFieldErrors [("title", Json.num 3)])) :=
  ⟨⟨Json.num 3, rfl, rfl⟩,
   claim_C9_toplevel_failure_shortcircuits _ (Or.inr (Or.inl ⟨Json.num 3, rfl, rfl⟩))⟩

/-- C10: a dashboard with no top-level violations and no panel-phase
violations is accepted: the verdict is `passed = true`, whatever advisory
recommended-field warnings or query-sanity warnings get appended to the log. -/
theorem claim_C10_valid_dashboard_passes (d : Dict)
    (h1 : requiredFieldErrors d = []) (h2 : panelPhaseErrors d = []) :
    (validate_grafana_dashboard d).1 = true := by
  unfold validate_grafana_dashboard
  simp [h1, h2]

theorem claim_C10_witness :
    requiredFieldErrors minimalDashboard = [] ∧
    panelPhaseErrors minimalDashboard = [] ∧
    (validate_grafana_dashboard minimalDashboard).1 = true :=
  ⟨rfl, rfl, claim_C10_valid_dashboard_passes minimalDashboard rfl rfl⟩

/-- C7: when `promtool check rules` completes with a non-zero exit status,
the verdict fails immediately with a log holding exactly the syntax-phase
stdout/stderr, and the result does not depend on the `test rules` phase at
all (that sub-operation is never consulted). -/
theorem claim_C7_syntax_failure_skips_tests (env : PromtoolEnv) (rc : Int)
    (out err : String) (hw : env.writeError = none)
    (hc : env.checkRules = .completed rc out err) (hrc : rc ≠ 0) :
    validate_prometheus_rules env =
      (false, "❌ Syntax Check: FAILED\n\nSTDOUT:\n" ++ out ++
        "\n\nSTDERR:\n" ++ err) ∧
    ∀ t, validate_prometheus_rules { env with testRules := t } =
      validate_prometheus_rules env := by
  constructor
  · unfold validate_prometheus_rules
    rw [hw, hc]
    simp [hrc]
  · intro t
    unfold validate_prometheus_rules
    simp only [hw, hc]
    simp [hrc]

theorem claim_C7_witness :
    (⟨none, .completed 1 "o" "e", .timedOut⟩ : PromtoolEnv).writeError = none ∧
    (1 : Int) ≠ 0 ∧
    validate_prometheus_rules ⟨none, .completed 1 "o" "e", .timedOut⟩ =
      (false, "❌ Syntax Check: FAILED\n\nSTDOUT:\no\n\nSTDERR:\ne") :=
  ⟨rfl, by decide,
   (claim_C7_syntax_failure_skips_tests ⟨none, .completed 1 "o" "e", .timedOut⟩
     1 "o" "e" rfl rfl (by decide)).1⟩

/-- C8: a checker timeout in either phase and an absent checker executable
each produce a failing verdict carrying its own distinct diagnostic message
(the function is total, so no exception escapes in these cases). -/
theorem claim_C8_timeout_and_missing_checker_verdicts (env : PromtoolEnv) :
    (env.writeError = none → env.checkRules = .timedOut →
      validate_prometheus_rules env = (false, "❌ Syntax validation timeout")) ∧
    (∀ out err, env.writeError = none → env.checkRules = .completed 0 out err →
      env.testRules = .timedOut →
      validate_prometheus_rules env = (false, "❌ Test execution timeout")) ∧
    (∀ m, env.writeError = none → env.checkRules = .notFound m →
      validate_prometheus_rules env =
        (false, "❌ promtool not found (not in container?)")) ∧
    ("❌ Syntax validation timeout" ≠ "❌ Test execution timeout" ∧
     "❌ Syntax validation timeout" ≠ "❌ promtool not found (not in container?)" ∧
     "❌ Test execution timeout" ≠ "❌ promtool not found (not in container?)") := by
  refine ⟨?_, ?_, ?_, by decide, by decide, by decide⟩
  · intro hw hc
    unfold validate_prometheus_rules
    rw [hw, hc]
  · intro out err hw hc ht
    unfold validate_prometheus_rules
    rw [hw, hc, ht]
    simp
  · intro m hw hc
    unfold validate_prometheus_rules
    rw [hw, hc]

theorem claim_C8_witness :
    (⟨none, .timedOut, .timedOut⟩ : PromtoolEnv).writeError = none ∧
    (⟨none, .timedOut, .timedOut⟩ : PromtoolEnv).checkRules = .timedOut ∧
    validate_prometheus_rules ⟨none, .timedOut, .timedOut⟩ =
      (false, "❌ Syntax validation timeout") :=
  ⟨rfl, rfl,
   (claim_C8_timeout_and_missing_checker_verdicts ⟨none, .timedOut, .timedOut⟩).1 rfl rfl⟩

end OllieAgent
